import Mathlib

/-!
Verification development for the `report_qweb_signer` module
(`models/ir_actions_report.py`): a shallow embedding of the certificate
matcher, the signed-attachment cache (with its base64 round-trip), the
external signer invoker command lines, and the two signing-orchestrator
entry points, together with theorems settling the specified properties.

Modelling conventions:
  * bytes are `Nat` values (meaningful when `< 256`);
  * the ORM stores (certificate configuration, attachment store) are
    explicit lists threaded through the functions;
  * the filesystem is an association list from paths to contents;
  * Python exceptions are an explicit `Except` result (`UserError`,
    `AccessError` converted to `UserError` where the source catches it,
    `TypeError` for a bytes-api applied to a non-bytes value,
    `NameError` for reading a never-assigned local);
  * environment-dependent pieces (path resolution via
    `_normalize_filepath`, the subprocess exit code and whether the tool
    wrote its output file, the `super()` pipeline steps) are oracle
    fields of an `Env` record;
  * observable side operations are recorded as an `Event` trace.
-/

/-- A `report.certificate` configuration record.  The `domain` filter is
modelled as the predicate over record ids induced by searching
`[('id','in',res_ids)] + safe_eval(cert.domain)` (`none` = empty/falsy
domain field); `attachment` is the filename rule evaluated by
`_attach_filename_get` (`none` = falsy `attachment` field). -/
structure Certificate where
  name : String
  companyId : Nat
  modelName : String
  allowOnlyOne : Bool
  domain : Option (Nat → Bool)
  attachment : Option (Nat → String)
  path : String
  passwordFile : String

/-- Domain check of `_certificate_get`: with a domain set, the search over
`[('id','in',tuple(res_ids))] + safe_eval(cert.domain)` finds at least one
document iff some id in `res_ids` satisfies the certificate's predicate. -/
def domainSat (cert : Certificate) (resIds : List Nat) : Bool :=
  match cert.domain with
  | none => true
  | some p => resIds.any p

/-- The `search([('company_id','=',company), ('model_id','=',model)])` of
`_certificate_get`, in stable configuration order. -/
def certSearch (allCerts : List Certificate) (companyId : Nat) (model : String) :
    List Certificate :=
  allCerts.filter (fun c => c.companyId == companyId && c.modelName == model)

/-- The candidate loop of `_certificate_get`: skip when
`cert.allow_only_one and len(self) > 1` (note: the source tests the length
of the report recordset `self`, not of `res_ids`), skip when the domain
filter matches no document, otherwise return the certificate. -/
def certScan (selfLen : Nat) (resIds : List Nat) : List Certificate → Option Certificate
  | [] => none
  | c :: rest =>
    if c.allowOnlyOne && decide (selfLen > 1) then certScan selfLen resIds rest
    else if !(domainSat c resIds) then certScan selfLen resIds rest
    else some c

/-- Embedding of `IrActionsReport._certificate_get(res_ids)`: returns `False` unless the
report type is `qweb-pdf`, then scans the configured certificates of the
current company and target model in configuration order. -/
def certificate_get (reportType : String) (companyId : Nat) (model : String)
    (selfLen : Nat) (allCerts : List Certificate) (resIds : List Nat) :
    Option Certificate :=
  if reportType ≠ "qweb-pdf" then none
  else certScan selfLen resIds (certSearch allCerts companyId model)

/-- A candidate passes when neither the multiplicity condition
(`allow_only_one` with more than one report record) nor the domain-filter
condition makes the loop skip it. -/
def certPasses (selfLen : Nat) (resIds : List Nat) (c : Certificate) : Bool :=
  !(c.allowOnlyOne && decide (selfLen > 1)) && domainSat c resIds

theorem certScan_eq_find (selfLen : Nat) (resIds : List Nat) :
    ∀ l : List Certificate,
      certScan selfLen resIds l = l.find? (certPasses selfLen resIds) := by
  intro l
  induction l with
  | nil => rfl
  | cons c rest ih =>
    by_cases h1 : (c.allowOnlyOne && decide (selfLen > 1)) = true
    · simp [certScan, h1, List.find?, certPasses, ih]
    · by_cases h2 : domainSat c resIds = true
      · simp [certScan, h1, h2, List.find?, certPasses]
      · simp [certScan, h1, h2, List.find?, certPasses, ih]

/-- C1: for every company, target model and configured-certificate list, on
the `qweb-pdf` report type the Matcher `_certificate_get` returns the first
certificate, in configuration order among those configured for the company
and model, for which both the multiplicity condition (as implemented) and
the domain-filter condition pass, and returns none (`False`) when every
candidate fails one of the two conditions. -/
theorem certificate_get_first_match (companyId : Nat) (model : String)
    (selfLen : Nat) (allCerts : List Certificate) (resIds : List Nat) :
    certificate_get "qweb-pdf" companyId model selfLen allCerts resIds
      = (certSearch allCerts companyId model).find? (certPasses selfLen resIds) := by
  simp [certificate_get, certScan_eq_find]

/-- A certificate with `allow_only_one` set, no domain filter. -/
def certOnlyOne : Certificate :=
  ⟨"only-one", 1, "sale.order", true, none, none, "cert.p12", "cert.pass"⟩

/-- C2 (code bug): the source guards the multiplicity skip with
`cert.allow_only_one and len(self) > 1`, testing the report recordset
`self` instead of `res_ids` — while its own debug message reports
"printing %d documents" with `len(res_ids)`.  With a single report record
(`selfLen = 1`) and two res_ids, the `allow_only_one` certificate is
returned as the match instead of being skipped. -/
theorem certificate_get_allow_only_one_not_skipped :
    certificate_get "qweb-pdf" 1 "sale.order" 1 [certOnlyOne] [10, 20]
      = some certOnlyOne := rfl

/-! ### Base64 (`base64.encodebytes` / `base64.decodestring`) -/

/-- The base64 alphabet. -/
def b64alpha : List Char :=
  "ABCDEFGHIJKLMNOPQRSTUVWXYZabcdefghijklmnopqrstuvwxyz0123456789+/".toList

/-- Encoding table lookup (all actual uses index with a sextet `< 64`). -/
def b64char (n : Nat) : Char := b64alpha.getD n 'A'

/-- Decoding table lookup. -/
def b64val (c : Char) : Option Nat := b64alpha.findIdx? (fun x => x == c)

/-- Characters `binascii.a2b_base64` does not discard. -/
def isB64 (c : Char) : Bool := b64alpha.contains c || c == '='

/-- Raw base64 of a byte string: 3-byte groups to 4 characters, with `=`
padding on a trailing group of 1 or 2 bytes. -/
def encodeChunk : List Nat → List Char
  | [] => []
  | [a] => [b64char (a / 4), b64char (a % 4 * 16), '=', '=']
  | [a, b] => [b64char (a / 4), b64char (a % 4 * 16 + b / 16), b64char (b % 16 * 4), '=']
  | a :: b :: c :: rest =>
      b64char (a / 4) :: b64char (a % 4 * 16 + b / 16) ::
        b64char (b % 16 * 4 + c / 64) :: b64char (c % 64) :: encodeChunk rest

/-- Line splitting of `base64.encodebytes`: one newline-terminated output
line per 57-byte input slice.  The fuel argument (instantiated with the
input length) makes the recursion structural. -/
def encodeLines : Nat → List Nat → List Char
  | _, [] => []
  | 0, _ :: _ => []
  | fuel + 1, x :: xs =>
      encodeChunk ((x :: xs).take 57) ++ '\n' :: encodeLines fuel ((x :: xs).drop 57)

/-- Embedding of `base64.encodebytes`. -/
def encodebytes (l : List Nat) : List Char := encodeLines l.length l

/-- Quad-wise base64 decoding with `=`-padding handling, as
`binascii.a2b_base64` performs after discarding non-alphabet characters. -/
def decodeQuads : List Char → List Nat
  | c1 :: c2 :: c3 :: c4 :: rest =>
    (match b64val c1, b64val c2 with
     | some s1, some s2 =>
       if c3 == '=' then [s1 * 4 + s2 / 16]
       else
         (match b64val c3 with
          | some s3 =>
            if c4 == '=' then [s1 * 4 + s2 / 16, s2 % 16 * 16 + s3 / 4]
            else
              (match b64val c4 with
               | some s4 =>
                   (s1 * 4 + s2 / 16) :: (s2 % 16 * 16 + s3 / 4) ::
                     (s3 % 4 * 64 + s4) :: decodeQuads rest
               | none => [])
          | none => [])
     | _, _ => [])
  | _ => []

/-- Embedding of `base64.decodestring` (alias of `decodebytes`): discard characters
outside the alphabet (newlines in particular), then decode. -/
def decodebytes (s : List Char) : List Nat := decodeQuads (s.filter isB64)

theorem b64val_b64char : ∀ n, n < 64 → b64val (b64char n) = some n := by decide

theorem b64char_ne_pad : ∀ n, n < 64 → (b64char n == '=') = false := by decide

theorem isB64_b64char : ∀ n, n < 64 → isB64 (b64char n) = true := by decide

theorem isB64_pad : isB64 '=' = true := by decide

theorem isB64_newline : isB64 '\n' = false := by decide

theorem encodeChunk_mem_isB64 :
    ∀ (n : Nat) (l : List Nat), l.length ≤ n → (∀ x ∈ l, x < 256) →
      ∀ c ∈ encodeChunk l, isB64 c = true := by
  intro n
  induction n with
  | zero =>
    intro l hl _ c hc
    have : l = [] := by cases l <;> simp_all
    subst this
    simp [encodeChunk] at hc
  | succ n ih =>
    intro l hl hb c hc
    match l with
    | [] => simp [encodeChunk] at hc
    | [a] =>
      have ha : a < 256 := hb a (by simp)
      simp only [encodeChunk, List.mem_cons, List.not_mem_nil, or_false] at hc
      rcases hc with h | h | h | h <;> subst h
      · exact isB64_b64char _ (by omega)
      · exact isB64_b64char _ (by omega)
      · exact isB64_pad
      · exact isB64_pad
    | [a, b] =>
      have ha : a < 256 := hb a (by simp)
      have hb2 : b < 256 := hb b (by simp)
      simp only [encodeChunk, List.mem_cons, List.not_mem_nil, or_false] at hc
      rcases hc with h | h | h | h <;> subst h
      · exact isB64_b64char _ (by omega)
      · exact isB64_b64char _ (by omega)
      · exact isB64_b64char _ (by omega)
      · exact isB64_pad
    | a :: b :: cc :: rest =>
      have ha : a < 256 := hb a (by simp)
      have hb2 : b < 256 := hb b (by simp)
      have hc2 : cc < 256 := hb cc (by simp)
      simp only [encodeChunk, List.mem_cons] at hc
      rcases hc with h | h | h | h | h
      · subst h; exact isB64_b64char _ (by omega)
      · subst h; exact isB64_b64char _ (by omega)
      · subst h; exact isB64_b64char _ (by omega)
      · subst h; exact isB64_b64char _ (by omega)
      · exact ih rest (by simp at hl ⊢; omega)
          (fun x hx => hb x (by simp [hx])) c h

theorem decodeQuads_encodeChunk :
    ∀ (n : Nat) (l : List Nat), l.length ≤ n → (∀ x ∈ l, x < 256) →
      decodeQuads (encodeChunk l) = l := by
  intro n
  induction n with
  | zero =>
    intro l hl _
    have : l = [] := by cases l <;> simp_all
    subst this
    rfl
  | succ n ih =>
    intro l hl hb
    match l with
    | [] => rfl
    | [a] =>
      have ha : a < 256 := hb a (by simp)
      have h1 := b64val_b64char (a / 4) (by omega)
      have h2 := b64val_b64char (a % 4 * 16) (by omega)
      simp [encodeChunk, decodeQuads, h1, h2]
      omega
    | [a, b] =>
      have ha : a < 256 := hb a (by simp)
      have hb2 : b < 256 := hb b (by simp)
      have h1 := b64val_b64char (a / 4) (by omega)
      have h2 := b64val_b64char (a % 4 * 16 + b / 16) (by omega)
      have h3 := b64val_b64char (b % 16 * 4) (by omega)
      have hne3 := b64char_ne_pad (b % 16 * 4) (by omega)
      simp [encodeChunk, decodeQuads, h1, h2, h3, hne3]
      omega
    | a :: b :: cc :: rest =>
      have ha : a < 256 := hb a (by simp)
      have hb2 : b < 256 := hb b (by simp)
      have hc2 : cc < 256 := hb cc (by simp)
      have h1 := b64val_b64char (a / 4) (by omega)
      have h2 := b64val_b64char (a % 4 * 16 + b / 16) (by omega)
      have h3 := b64val_b64char (b % 16 * 4 + cc / 64) (by omega)
      have h4 := b64val_b64char (cc % 64) (by omega)
      have hne3 := b64char_ne_pad (b % 16 * 4 + cc / 64) (by omega)
      have hne4 := b64char_ne_pad (cc % 64) (by omega)
      have hrest := ih rest (by simp at hl ⊢; omega)
        (fun x hx => hb x (by simp [hx]))
      simp [encodeChunk, decodeQuads, h1, h2, h3, h4, hne3, hne4, hrest]
      omega

theorem filter_encodeChunk (l : List Nat) (hb : ∀ x ∈ l, x < 256) :
    (encodeChunk l).filter isB64 = encodeChunk l :=
  List.filter_eq_self.mpr (encodeChunk_mem_isB64 l.length l le_rfl hb)

theorem encodeChunk_append :
    ∀ (n : Nat) (l1 l2 : List Nat), l1.length ≤ n → l1.length % 3 = 0 →
      encodeChunk (l1 ++ l2) = encodeChunk l1 ++ encodeChunk l2 := by
  intro n
  induction n with
  | zero =>
    intro l1 l2 hl _
    have : l1 = [] := by cases l1 <;> simp_all
    subst this
    simp [encodeChunk]
  | succ n ih =>
    intro l1 l2 hl h3
    match l1 with
    | [] => simp [encodeChunk]
    | [a] => simp at h3
    | [a, b] => simp at h3
    | a :: b :: c :: rest =>
      have : (a :: b :: c :: rest) ++ l2 = a :: b :: c :: (rest ++ l2) := by simp
      rw [this]
      show _ = (b64char (a / 4) :: b64char (a % 4 * 16 + b / 16) ::
          b64char (b % 16 * 4 + c / 64) :: b64char (c % 64) :: encodeChunk rest) ++ _
      simp only [encodeChunk, List.cons_append]
      rw [ih rest l2 (by simp at hl ⊢; omega) (by simp at h3 ⊢; omega)]

theorem encodeLines_filter :
    ∀ (fuel : Nat) (l : List Nat), l.length ≤ fuel → (∀ x ∈ l, x < 256) →
      (encodeLines fuel l).filter isB64 = encodeChunk l := by
  intro fuel
  induction fuel with
  | zero =>
    intro l h _
    have : l = [] := by cases l <;> simp_all
    subst this
    rfl
  | succ n ih =>
    intro l h hb
    match l with
    | [] => rfl
    | x :: xs =>
      show (encodeChunk ((x :: xs).take 57) ++
          '\n' :: encodeLines n ((x :: xs).drop 57)).filter isB64 = _
      rw [List.filter_append]
      rw [filter_encodeChunk _ (fun y hy => hb y (List.mem_of_mem_take hy))]
      have hnl : (('\n' :: encodeLines n ((x :: xs).drop 57)).filter isB64)
          = (encodeLines n ((x :: xs).drop 57)).filter isB64 := by
        simp [List.filter, isB64_newline]
      rw [hnl]
      rw [ih ((x :: xs).drop 57) (by simp [List.length_drop] at h ⊢; omega)
        (fun y hy => hb y (List.mem_of_mem_drop hy))]
      by_cases hlen : (x :: xs).length ≤ 57
      · rw [List.take_of_length_le hlen, List.drop_eq_nil_of_le hlen]
        simp [encodeChunk]
      · rw [← encodeChunk_append ((x :: xs).take 57).length _ _ le_rfl
          (by rw [List.length_take]; omega)]
        rw [List.take_append_drop]

/-- Decoding inverts encoding on every genuine byte string: the
`base64.encodebytes` / `base64.decodestring` pair used by the cache
round-trips byte for byte. -/
theorem decodebytes_encodebytes (l : List Nat) (hb : ∀ x ∈ l, x < 256) :
    decodebytes (encodebytes l) = l := by
  unfold decodebytes encodebytes
  rw [encodeLines_filter l.length l le_rfl hb]
  exact decodeQuads_encodeChunk l.length l le_rfl hb

/-! ### Signed-attachment cache -/

/-- Python exceptions surfaced by the embedded code. -/
inductive PyErr
  | userError (msg : String)
  | typeError
  | nameError
deriving DecidableEq, Repr

/-- An `ir.attachment` record as created/searched by the cache. -/
structure Attachment where
  name : String
  datas : List Char
  datasFname : String
  resModel : String
  resId : Nat
deriving DecidableEq, Repr

/-- A Python runtime value moved through the orchestrators: a `BytesIO`
stream, a `bytes` object, an attachment record, or the literal `False`. -/
inductive Value
  | stream (b : List Nat)
  | bytes (b : List Nat)
  | attachRef (a : Attachment)
  | pyFalse
deriving DecidableEq, Repr

/-- Embedding of `_attach_filename_get(res_ids, certificate)`: `False` unless exactly one
record id; otherwise the certificate's naming rule evaluated on the record
(the `time` module passed to `safe_eval` is absorbed into the rule). -/
def attach_filename_get (cert : Certificate) (resIds : List Nat) : Option String :=
  if resIds.length ≠ 1 then none
  else cert.attachment.map (fun rule => rule (resIds.headD 0))

/-- The `if not filename` truthiness test performed by both cache
operations after `_attach_filename_get`. -/
def truthyFilename (cert : Certificate) (resIds : List Nat) : Option String :=
  match attach_filename_get cert resIds with
  | some f => if f = "" then none else some f
  | none => none

/-- Embedding of `_attach_signed_read(res_ids, certificate)`: `False` unless exactly one
record id and a truthy filename; otherwise search the attachment store for
the first record with this filename, model and record id (`limit=1`) and
return its base64-decoded content. -/
def attach_signed_read (atts : List Attachment) (cert : Certificate)
    (resIds : List Nat) : Option (List Nat) :=
  if resIds.length ≠ 1 then none
  else
    match truthyFilename cert resIds with
    | none => none
    | some f =>
      match atts.find? (fun a =>
          a.datasFname == f && a.resModel == cert.modelName &&
            a.resId == resIds.headD 0) with
      | some a => some (decodebytes a.datas)
      | none => none

/-- Result of `_attach_signed_write`: the outcome (`False`, or the created
attachment) and the updated attachment store. -/
structure WriteRun where
  result : Except PyErr (Option Attachment)
  atts : List Attachment
deriving Repr

/-- Embedding of `_attach_signed_write(res_ids, certificate, signed)`: `False` unless
exactly one record id and a truthy filename; base64-encode the signed bytes
(a non-bytes value raises `TypeError`) and create the attachment record;
an `AccessError` from `create` is caught and re-raised as the user-facing
`UserError` below. -/
def saving_error_msg : String :=
  "Saving signed report (PDF): You do not have enough access rights to save attachments"

def attach_signed_write (accessDenied : Bool) (atts : List Attachment)
    (cert : Certificate) (resIds : List Nat) (signed : Value) : WriteRun :=
  if resIds.length ≠ 1 then ⟨.ok none, atts⟩
  else
    match truthyFilename cert resIds with
    | none => ⟨.ok none, atts⟩
    | some f =>
      match signed with
      | .bytes b =>
        if accessDenied then ⟨.error (.userError saving_error_msg), atts⟩
        else
          ⟨.ok (some ⟨f, encodebytes b, f, cert.modelName, resIds.headD 0⟩),
            atts ++ [⟨f, encodebytes b, f, cert.modelName, resIds.headD 0⟩]⟩
      | _ => ⟨.error .typeError, atts⟩

theorem find_append_of_none {α : Type} (p : α → Bool) (l1 l2 : List α)
    (h : l1.find? p = none) : (l1 ++ l2).find? p = l2.find? p := by
  rw [List.find?_append, h, Option.none_or]

/-- C6: for every certificate with a (deterministic, truthy) naming rule,
record id and byte string, a cache store followed by a cache lookup for the
same certificate and record id returns the stored bytes unchanged — the
base64 encode on store and decode on lookup round-trip exactly.  (The
store must not already hold an attachment under the same key, since lookup
takes the first match.) -/
theorem cache_roundtrip (atts : List Attachment) (cert : Certificate)
    (rid : Nat) (b : List Nat) (rule : Nat → String)
    (hr : cert.attachment = some rule) (hf : rule rid ≠ "")
    (hb : ∀ x ∈ b, x < 256)
    (hfresh : ∀ a ∈ atts,
      ¬(a.datasFname = rule rid ∧ a.resModel = cert.modelName ∧ a.resId = rid)) :
    attach_signed_read (attach_signed_write false atts cert [rid] (.bytes b)).atts
      cert [rid] = some b := by
  have hfile : truthyFilename cert [rid] = some (rule rid) := by
    simp [truthyFilename, attach_filename_get, hr, hf]
  have hwr : (attach_signed_write false atts cert [rid] (.bytes b)).atts
      = atts ++ [⟨rule rid, encodebytes b, rule rid, cert.modelName, rid⟩] := by
    simp [attach_signed_write, hfile]
  rw [hwr]
  have hnone : atts.find? (fun a =>
      a.datasFname == rule rid && a.resModel == cert.modelName &&
        a.resId == ([rid] : List Nat).headD 0) = none := by
    rw [List.find?_eq_none]
    intro a ha
    have := hfresh a ha
    simp only [List.headD, Bool.and_eq_true, beq_iff_eq]
    tauto
  simp only [attach_signed_read, hfile]
  rw [find_append_of_none _ _ _ hnone]
  simp [decodebytes_encodebytes b hb]

/-- Concrete certificate for the cache round-trip witness. -/
def certCache : Certificate :=
  ⟨"cache", 1, "sale.order", false, none, some (fun _ => "SO-42-signed.pdf"),
    "ks.p12", "pw.txt"⟩

theorem cache_roundtrip_witness :
    attach_signed_read
      (attach_signed_write false [] certCache [42] (.bytes [37, 80, 68, 70])).atts
      certCache [42] = some [37, 80, 68, 70] :=
  cache_roundtrip [] certCache 42 [37, 80, 68, 70] (fun _ => "SO-42-signed.pdf")
    rfl (by decide) (by decide) (by simp)

/-- C9: for every cache store in which the caller lacks write authority on
the attachment store (`create` raises `AccessError`), `_attach_signed_write`
surfaces the failure as the user-facing `UserError` about saving the signed
report — the access error is never swallowed silently. -/
theorem attach_signed_write_access_denied (atts : List Attachment)
    (cert : Certificate) (rid : Nat) (b : List Nat) (rule : Nat → String)
    (hr : cert.attachment = some rule) (hf : rule rid ≠ "") :
    (attach_signed_write true atts cert [rid] (.bytes b)).result
      = .error (.userError saving_error_msg) := by
  have hfile : truthyFilename cert [rid] = some (rule rid) := by
    simp [truthyFilename, attach_filename_get, hr, hf]
  simp [attach_signed_write, hfile]

theorem attach_signed_write_access_denied_witness :
    (attach_signed_write true [] certCache [42] (.bytes [1, 2])).result
      = .error (.userError saving_error_msg) :=
  attach_signed_write_access_denied [] certCache 42 [1, 2]
    (fun _ => "SO-42-signed.pdf") rfl (by decide)

/-! ### External signer invoker -/

/-- The fixed runtime invocation shared by `_signer_bin` and
`_signer_bin_2`. -/
def java_bin : String := "java -jar -Xms256m -Xmx1048m"

/-- The legacy jPdfSign tool artifact path (`me` is `dirname(__file__)`). -/
def jar_path (me : String) : String := me ++ "/../static/jar/jPdfSign.jar"

/-- The JSignPdf tool artifact path used by `_signer_bin_2`. -/
def jar_path_2 (me : String) : String := me ++ "/../static/jar/JSignPdf.jar"

/-- Embedding of `_signer_bin(opts)`: `'%s %s %s' % (java_bin, jar, opts)`. -/
def signer_bin (me opts : String) : String :=
  java_bin ++ " " ++ jar_path me ++ " " ++ opts

/-- Embedding of `_signer_bin_2(opts)`: `'%s %s %s' % (java_bin, jar, opts)`. -/
def signer_bin_2 (me opts : String) : String :=
  java_bin ++ " " ++ jar_path_2 me ++ " " ++ opts

/-- Shell double-quoting `"%s"` as used in both option strings. -/
def qstr (s : String) : String := "\"" ++ s ++ "\""

/-- The option string built by `pdf_sign`:
`'"%s" "%s" "%s" "%s"' % (p12, pdf, pdfsigned, passwd)`. -/
def signer_opts_v1 (p12 pdf pdfsigned passwd : String) : String :=
  qstr p12 ++ " " ++ qstr pdf ++ " " ++ qstr pdfsigned ++ " " ++ qstr passwd

/-- The option string built by `pdf_sign_2`: the input pdf first, the
keystore behind `-ksf`, the hardcoded password `'300474'` behind `-ksp`,
then fixed signature-appearance flags.  The resolved password file is not
part of it. -/
def signer_opts_v2 (pdf p12 : String) : String :=
  " " ++ qstr pdf ++ " -ksf " ++ qstr p12 ++ " -ksp " ++ qstr "300474" ++ " -V " ++
    " -llx 300 -lly 1075 -urx 600 -ury 100 " ++
    " -fs 8 -l " ++ qstr "CAMBRE" ++ " -r " ++ qstr "CERTIFICAR" ++
    " -d " ++ qstr "/tmp"

/-- The full command line of the legacy `pdf_sign` (output path is the
input path plus `'.signed.pdf'`). -/
def pdf_sign_command (me pdf p12 passwd : String) : String :=
  signer_bin me (signer_opts_v1 p12 pdf (pdf ++ ".signed.pdf") passwd)

/-- The output path convention of `pdf_sign_2`: `pdf[:-4] + '_signed.pdf'`. -/
def signedName (pdf : String) : String := pdf.dropRight 4 ++ "_signed.pdf"

/-- The full command line of `pdf_sign_2`. -/
def pdf_sign_2_command (me pdf p12 : String) : String :=
  signer_bin_2 me (signer_opts_v2 pdf p12)

/-- Modelled from the spec (for comparison with the source command
builders): "invoked as
`<runtime> <tool-artifact> <keystore> <input.pdf> <output.pdf> <password-file>`",
with the positional arguments shell-quoted as the source quotes them. -/
def spec_signer_command (runtime tool keystore input output passwdFile : String) :
    String :=
  runtime ++ " " ++ tool ++ " " ++ qstr keystore ++ " " ++ qstr input ++ " " ++
    qstr output ++ " " ++ qstr passwdFile

/-- Substring occurrence over character lists. -/
def hasSeg (needle : List Char) : List Char → Bool
  | [] => needle.isEmpty
  | c :: rest => needle.isPrefixOf (c :: rest) || hasSeg needle rest

/-! ### Environment and filesystem for the orchestrators -/

/-- Filesystem: existing paths with their contents. -/
abbrev FS := List (String × List Nat)

def fsExists (fs : FS) (p : String) : Bool := fs.any (fun e => e.1 == p)

def fsRead (fs : FS) (p : String) : List Nat :=
  match fs.find? (fun e => e.1 == p) with
  | some e => e.2
  | none => []

def fsWrite (fs : FS) (p : String) (b : List Nat) : FS := (p, b) :: fs

def fsUnlink (fs : FS) (p : String) : FS := fs.filter (fun e => e.1 != p)

/-- Observable side operations of an orchestrator run. -/
inductive Event
  | matcherCall
  | cacheRead
  | cacheWrite
  | tmpCreate (path : String)
  | signCall (cmd : String)
  | unlinkFile (path : String)
  | superCall
deriving DecidableEq, Repr

/-- The ambient collaborators of one orchestrator invocation: report and
session data, the certificate configuration, oracles for path resolution
(`_normalize_filepath`), the external tool's behaviour (exit status,
captured streams, whether it wrote its output file and with what
transformation of the input bytes), attachment-store write authority, and
the `super()` pipeline steps. -/
structure Env where
  reportType : String
  companyId : Nat
  model : String
  selfLen : Nat
  allCerts : List Certificate
  me : String
  resolve : String → Option String
  tmpName : String
  signerExit : Nat
  signerErr : String
  signerOut : String
  signerWritesOutput : Bool
  signTransform : List Nat → List Nat
  accessDenied : Bool
  superPost : List Nat → List Nat
  superPdfResult : List Nat

def cert_not_found_msg : String :=
  "Signing report (PDF): Certificate or password file not found"

def sign_failed_msg (code : Nat) (err out : String) : String :=
  "Signing report (PDF): jPdfSign failed (error code: " ++ toString code ++
    "). Message: " ++ err ++ ". Output: " ++ out

/-- Result of a `pdf_sign_2` call: outcome (signed-output path or raised
error), filesystem after the subprocess ran, events. -/
structure SignRun where
  result : Except PyErr String
  fs : FS
  events : List Event

/-- Embedding of `pdf_sign_2(pdf, certificate)`: compute the signed-output sibling name,
resolve keystore and password file (raising the user-facing error when
either is missing), run the external tool (which may write the output
file), and raise the user-facing failure on a nonzero exit status. -/
def pdf_sign_2 (env : Env) (fs : FS) (pdf : String) (cert : Certificate) : SignRun :=
  let pdfsigned := signedName pdf
  match env.resolve cert.path, env.resolve cert.passwordFile with
  | some p12, some _passwd =>
    let cmd := pdf_sign_2_command env.me pdf p12
    let fs1 := if env.signerWritesOutput then
        fsWrite fs pdfsigned (env.signTransform (fsRead fs pdf))
      else fs
    if env.signerExit ≠ 0 then
      ⟨.error (.userError (sign_failed_msg env.signerExit env.signerErr env.signerOut)),
        fs1, [.signCall cmd]⟩
    else ⟨.ok pdfsigned, fs1, [.signCall cmd]⟩
  | _, _ => ⟨.error (.userError cert_not_found_msg), fs, []⟩

/-! ### Signing orchestrator -/

/-- Result of an orchestrator entry point: outcome, filesystem, attachment
store, events. -/
structure PostRun where
  result : Except PyErr Value
  fs : FS
  atts : List Attachment
  events : List Event

/-- The final `return super(...).postprocess_pdf_report(record,
io.BytesIO(buffer))`: `io.BytesIO` demands a bytes-like argument, so a
stream (or `False`/record) raises `TypeError` before the default step runs;
on bytes the default postprocessing step (abstracted as `env.superPost`)
receives the stream and produces the result. -/
def superPostStep (env : Env) (fs : FS) (atts : List Attachment) (v : Value)
    (evs : List Event) : PostRun :=
  match v with
  | .bytes b => ⟨.ok (.bytes (env.superPost b)), fs, atts, evs ++ [Event.superCall]⟩
  | _ => ⟨.error .typeError, fs, atts, evs⟩

/-- Embedding of `postprocess_pdf_report(record, buffer)` (single-document entry point):
match a certificate for this record; with a caching certificate, read the
cache and return a truthy cached copy immediately; otherwise materialize
the buffer into a temp file, sign it with `pdf_sign_2` (an exception
propagates with no cleanup), rebind `buffer` to the signed bytes when the
output file exists, unlink both temp files, then either store through the
cache (returning its result) or delegate to the default step. -/
def postprocess_pdf_report (env : Env) (fs : FS) (atts : List Attachment)
    (recordId : Nat) (buffer : Value) : PostRun :=
  let certOpt := certificate_get env.reportType env.companyId env.model
    env.selfLen env.allCerts [recordId]
  let step1 : Option (List Nat) × List Event :=
    match certOpt with
    | some cert =>
      if cert.attachment.isSome then
        match attach_signed_read atts cert [recordId] with
        | some sc => (if sc.isEmpty then none else some sc, [Event.cacheRead])
        | none => (none, [Event.cacheRead])
      else (none, [])
    | none => (none, [])
  match step1 with
  | (some sc, evs1) => ⟨.ok (.bytes sc), fs, atts, Event.matcherCall :: evs1⟩
  | (none, evs1) =>
    match certOpt with
    | some cert =>
      match buffer with
      | .stream bb =>
        let pdf := env.tmpName
        let fs1 := fsWrite fs pdf bb
        let sr := pdf_sign_2 env fs1 pdf cert
        let evs2 := Event.matcherCall :: evs1 ++ [Event.tmpCreate pdf] ++ sr.events
        match sr.result with
        | .error e => ⟨.error e, sr.fs, atts, evs2⟩
        | .ok signed =>
          let buffer2 : Value :=
            if fsExists sr.fs signed then .bytes (fsRead sr.fs signed)
            else .stream bb
          let fs2 := fsUnlink (fsUnlink sr.fs pdf) signed
          let evs3 := evs2 ++ [Event.unlinkFile pdf, Event.unlinkFile signed]
          if cert.attachment.isSome then
            let wr := attach_signed_write env.accessDenied atts cert [recordId] buffer2
            let evs4 := evs3 ++ [Event.cacheWrite]
            match wr.result with
            | .error e => ⟨.error e, fs2, wr.atts, evs4⟩
            | .ok r =>
              ⟨.ok (match r with | some a => .attachRef a | none => .pyFalse),
                fs2, wr.atts, evs4⟩
          else superPostStep env fs2 atts buffer2 evs3
      | _ => ⟨.error .typeError, fs, atts, Event.matcherCall :: evs1⟩
    | none => superPostStep env fs atts buffer (Event.matcherCall :: evs1)

/-- Truthiness of the `pdf_content` argument (`None` and `b''` are falsy). -/
def truthyBytes : Option (List Nat) → Bool
  | none => false
  | some b => !b.isEmpty

/-- Embedding of `_post_pdf(save_in_attachment, pdf_content, res_ids)` (batch entry
point): run the default pipeline (`super()._post_pdf`, abstracted as
`env.superPdfResult`); when `pdf_content` is truthy and there is exactly
one record id, match a certificate and — with no cache read — write a temp
file, sign it with `pdf_sign_2`, rebind the local `buffer` only when the
output file exists, unlink both temp files, then assign `res = buffer`
(raising `NameError` when `buffer` was never bound); finally return `res`.
`save_in_attachment` is only forwarded to the default pipeline. -/
def post_pdf (env : Env) (fs : FS) (atts : List Attachment)
    (pdfContent : Option (List Nat)) (resIds : List Nat) : PostRun :=
  let res := env.superPdfResult
  if truthyBytes pdfContent && resIds.length == 1 then
    let certOpt := certificate_get env.reportType env.companyId env.model
      env.selfLen env.allCerts resIds
    let evs1 := [Event.superCall, Event.matcherCall]
    match certOpt with
    | some cert =>
      let bb := pdfContent.getD []
      let pdf := env.tmpName
      let fs1 := fsWrite fs pdf bb
      let sr := pdf_sign_2 env fs1 pdf cert
      let evs2 := evs1 ++ [Event.tmpCreate pdf] ++ sr.events
      match sr.result with
      | .error e => ⟨.error e, sr.fs, atts, evs2⟩
      | .ok signed =>
        let bufferOpt : Option (List Nat) :=
          if fsExists sr.fs signed then some (fsRead sr.fs signed) else none
        let fs2 := fsUnlink (fsUnlink sr.fs pdf) signed
        let evs3 := evs2 ++ [Event.unlinkFile pdf, Event.unlinkFile signed]
        match bufferOpt with
        | some b => ⟨.ok (.bytes b), fs2, atts, evs3⟩
        | none => ⟨.error .nameError, fs2, atts, evs3⟩
    | none => ⟨.ok (.bytes res), fs, atts, evs1⟩
  else ⟨.ok (.bytes res), fs, atts, [Event.superCall]⟩

/-! ### Claims on the orchestrators -/

/-- C8: every batch call whose `res_ids` has length other than one returns
the default-pipeline result unchanged, with the filesystem untouched and
no Matcher call, no temp file, no signer invocation in the trace. -/
theorem post_pdf_skips_non_single (env : Env) (fs : FS) (atts : List Attachment)
    (pdfContent : Option (List Nat)) (resIds : List Nat)
    (h : resIds.length ≠ 1) :
    post_pdf env fs atts pdfContent resIds
      = ⟨.ok (.bytes env.superPdfResult), fs, atts, [Event.superCall]⟩ := by
  have hlen : (resIds.length == 1) = false := by simpa using h
  simp [post_pdf, hlen]

/-- Environment with no configured certificates. -/
def envPlain : Env :=
  ⟨"qweb-pdf", 1, "sale.order", 1, [], "M", fun _ => none, "t.pdf", 0, "", "",
    false, id, false, id, [7]⟩

theorem post_pdf_skips_non_single_witness :
    ([] : List Nat).length ≠ 1 ∧
      post_pdf envPlain [] [] (some [9]) []
        = ⟨.ok (.bytes [7]), [], [], [Event.superCall]⟩ :=
  ⟨by decide, post_pdf_skips_non_single envPlain [] [] (some [9]) [] (by decide)⟩

/-- C10: on the batch path, when a certificate matches, the tool exits with
status zero but the signed-output file does not exist on disk, the local
`buffer` is never bound, so `res = buffer` raises `NameError` — the call
errors out instead of silently returning the unsigned default-pipeline
result. -/
theorem post_pdf_missing_output_name_error (env : Env) (fs : FS)
    (atts : List Attachment) (b : List Nat) (rid : Nat) (cert : Certificate)
    (p12 pw : String)
    (hb : b.isEmpty = false)
    (hcert : certificate_get env.reportType env.companyId env.model env.selfLen
      env.allCerts [rid] = some cert)
    (hp12 : env.resolve cert.path = some p12)
    (hpw : env.resolve cert.passwordFile = some pw)
    (hexit : env.signerExit = 0)
    (hout : env.signerWritesOutput = false)
    (hfresh : fsExists (fsWrite fs env.tmpName b) (signedName env.tmpName) = false) :
    (post_pdf env fs atts (some b) [rid]).result = .error PyErr.nameError := by
  simp [post_pdf, truthyBytes, hb, hcert, pdf_sign_2, hp12, hpw, hexit, hout, hfresh]

/-- Certificate and environment for the missing-output witness. -/
def certPlain : Certificate :=
  ⟨"plain", 1, "sale.order", false, none, none, "ks.p12", "pw.txt"⟩

def envMissingOutput : Env :=
  ⟨"qweb-pdf", 1, "sale.order", 1, [certPlain], "M", fun p => some p,
    "report.tmp.1.pdf", 0, "", "", false, id, false, id, [6]⟩

theorem post_pdf_missing_output_name_error_witness :
    (post_pdf envMissingOutput [] [] (some [9]) [3]).result
      = .error PyErr.nameError :=
  post_pdf_missing_output_name_error envMissingOutput [] [] [9] 3 certPlain
    "ks.p12" "pw.txt" (by decide) rfl rfl rfl rfl rfl (by decide)

/-- Certificate and environment for the failing-signature scenario of the
single-document entry point: one matching non-caching certificate, both
certificate files resolve, the tool exits with status 3 and writes
nothing. -/
def certC3 : Certificate :=
  ⟨"c3", 1, "sale.order", false, none, none, "ks.p12", "pw.txt"⟩

def envC3 : Env :=
  ⟨"qweb-pdf", 1, "sale.order", 1, [certC3], "M", fun _ => some "R",
    "report.tmp.9.pdf", 3, "e", "o", false, id, false, id, [7]⟩

/-- C3 counterexample: with a matching certificate and a nonzero tool exit
the user-facing signing error is raised, but the input temp file
`report.tmp.9.pdf` is still on disk after the call — the claim that both
temp files are absent afterwards is false (the cleanup loop is only reached
when `pdf_sign_2` returns normally). -/
theorem postprocess_fail_leaves_tmp :
    (postprocess_pdf_report envC3 [] [] 7 (.stream [1, 2, 3])).result
        = .error (.userError (sign_failed_msg 3 "e" "o"))
    ∧ fsExists (postprocess_pdf_report envC3 [] [] 7 (.stream [1, 2, 3])).fs
        "report.tmp.9.pdf" = true :=
  ⟨rfl, rfl⟩

/-- C3 amended: on a nonzero tool exit the single-document entry point
raises the user-facing signing error, and the filesystem afterwards is the
prior filesystem plus the still-present input temp file: the input temp
file is not deleted on the failure path, and no signed-output sibling was
added when the tool wrote nothing. -/
theorem postprocess_sign_failure_amended (env : Env) (fs : FS)
    (atts : List Attachment) (rid : Nat) (bb : List Nat) (cert : Certificate)
    (p12 pw : String)
    (hcert : certificate_get env.reportType env.companyId env.model env.selfLen
      env.allCerts [rid] = some cert)
    (hatt : cert.attachment = none)
    (hp12 : env.resolve cert.path = some p12)
    (hpw : env.resolve cert.passwordFile = some pw)
    (hexit : env.signerExit ≠ 0)
    (hout : env.signerWritesOutput = false) :
    (postprocess_pdf_report env fs atts rid (.stream bb)).result
        = .error (.userError (sign_failed_msg env.signerExit env.signerErr env.signerOut))
    ∧ (postprocess_pdf_report env fs atts rid (.stream bb)).fs
        = fsWrite fs env.tmpName bb := by
  constructor <;>
    simp [postprocess_pdf_report, hcert, hatt, pdf_sign_2, hp12, hpw, hexit, hout]

theorem postprocess_sign_failure_amended_witness :
    (postprocess_pdf_report envC3 [] [] 7 (.stream [1, 2, 3])).result
        = .error (.userError (sign_failed_msg 3 "e" "o"))
    ∧ (postprocess_pdf_report envC3 [] [] 7 (.stream [1, 2, 3])).fs
        = [("report.tmp.9.pdf", [1, 2, 3])] :=
  postprocess_sign_failure_amended envC3 [] [] 7 [1, 2, 3] certC3 "R" "R"
    rfl rfl rfl rfl (by decide) rfl

/-- C7 (code bug): with no matching certificate, the single-document entry
point reaches `super(...).postprocess_pdf_report(record, io.BytesIO(buffer))`
with `buffer` still the incoming `BytesIO` stream (the same object line 249
calls `.getvalue()` on in the signing branch), and `io.BytesIO` of a stream
raises `TypeError`: the input bytes are not returned, and the default step
never runs.  No temp file is created and the signer is not invoked. -/
theorem postprocess_no_cert_type_error :
    (postprocess_pdf_report envPlain [] [] 5 (.stream [37, 80, 68, 70])).result
        = .error .typeError
    ∧ (postprocess_pdf_report envPlain [] [] 5 (.stream [37, 80, 68, 70])).events
        = [Event.matcherCall]
    ∧ (postprocess_pdf_report envPlain [] [] 5 (.stream [37, 80, 68, 70])).fs = [] :=
  ⟨rfl, rfl, rfl⟩

theorem pdf_sign_2_events (env : Env) (fs : FS) (pdf : String)
    (cert : Certificate) :
    ∀ e ∈ (pdf_sign_2 env fs pdf cert).events, ∃ c, e = Event.signCall c := by
  intro e he
  unfold pdf_sign_2 at he
  cases h1 : env.resolve cert.path with
  | none => simp [h1] at he
  | some p12 =>
    cases h2 : env.resolve cert.passwordFile with
    | none => simp [h1, h2] at he
    | some pw =>
      simp only [h1, h2] at he
      by_cases hx : env.signerExit ≠ 0
      · simp [hx] at he
        exact ⟨_, he⟩
      · simp [hx] at he
        exact ⟨_, he⟩

theorem post_pdf_events_shape (env : Env) (fs : FS) (atts : List Attachment)
    (pdfContent : Option (List Nat)) (resIds : List Nat) :
    ∀ e ∈ (post_pdf env fs atts pdfContent resIds).events,
      e = .superCall ∨ e = .matcherCall ∨ (∃ p, e = .tmpCreate p) ∨
        (∃ c, e = .signCall c) ∨ (∃ p, e = .unlinkFile p) := by
  intro e he
  simp only [post_pdf] at he
  by_cases hcond : (truthyBytes pdfContent && resIds.length == 1) = true
  · simp only [hcond, if_true] at he
    cases hc : certificate_get env.reportType env.companyId env.model env.selfLen
        env.allCerts resIds with
    | none => simp [hc] at he; tauto
    | some cert =>
      simp only [hc] at he
      have hev := pdf_sign_2_events env (fsWrite fs env.tmpName (pdfContent.getD []))
        env.tmpName cert
      cases hsr : (pdf_sign_2 env (fsWrite fs env.tmpName (pdfContent.getD []))
          env.tmpName cert).result with
      | error err =>
        simp only [hsr] at he
        simp at he
        rcases he with h | h | h | h <;>
          first
            | (subst h; simp)
            | exact Or.inr (Or.inr (Or.inr (Or.inl (hev e h))))
      | ok signed =>
        simp only [hsr] at he
        by_cases hex : fsExists (pdf_sign_2 env (fsWrite fs env.tmpName
            (pdfContent.getD [])) env.tmpName cert).fs signed = true
        · simp only [hex, if_true] at he
          simp at he
          rcases he with h | h | h | h | h | h <;>
            first
              | (subst h; simp)
              | exact Or.inr (Or.inr (Or.inr (Or.inl (hev e h))))
        · simp only [eq_false_of_ne_true hex, if_false] at he
          simp at he
          rcases he with h | h | h | h | h | h <;>
            first
              | (subst h; simp)
              | exact Or.inr (Or.inr (Or.inr (Or.inl (hev e h))))
  · simp only [eq_false_of_ne_true hcond, if_false] at he
    simp at he
    tauto

/-- C4 amended: the two entry points duplicate the temp-file / sign /
cleanup core rather than sharing one routine, and the batch entry point
performs no signed-attachment-cache read before signing and no cache store
after signing on any input — only the single-document entry point consults
the cache. -/
theorem post_pdf_never_consults_cache (env : Env) (fs : FS)
    (atts : List Attachment) (pdfContent : Option (List Nat)) (resIds : List Nat) :
    Event.cacheRead ∉ (post_pdf env fs atts pdfContent resIds).events
    ∧ Event.cacheWrite ∉ (post_pdf env fs atts pdfContent resIds).events := by
  constructor <;> intro hmem <;>
    rcases post_pdf_events_shape env fs atts pdfContent resIds _ hmem with
      h | h | ⟨p, h⟩ | ⟨c, h⟩ | ⟨p, h⟩ <;> simp at h

/-- A caching certificate whose rule names `SO-<id>.pdf`, the matching
cached attachment for record 42, and an environment in which the tool
succeeds and writes its output. -/
def certC4 : Certificate :=
  ⟨"c4", 1, "sale.order", false, none,
    some (fun rid => "SO-" ++ toString rid ++ ".pdf"), "ks.p12", "pw.txt"⟩

def attC4 : Attachment :=
  ⟨"SO-42.pdf", encodebytes [9, 9], "SO-42.pdf", "sale.order", 42⟩

def envC4 : Env :=
  ⟨"qweb-pdf", 1, "sale.order", 1, [certC4], "M", fun _ => some "R",
    "report.tmp.4.pdf", 0, "", "", true, (fun b => b ++ [1]), false, id, [5]⟩

/-- C4 counterexample: with a caching certificate and a cached signed copy
in the store, the batch entry point on a single record performs no cache
read and no cache store and returns freshly signed bytes, while the
single-document entry point on the same input reads the cache and returns
the cached bytes — so the batch path does not consult the cache "exactly as
the single-document entry point does". -/
theorem post_pdf_no_cache_counterexample :
    (Event.cacheRead ∈ (post_pdf envC4 [] [attC4] (some [8, 8]) [42]).events → False)
    ∧ (Event.cacheWrite ∈ (post_pdf envC4 [] [attC4] (some [8, 8]) [42]).events → False)
    ∧ (post_pdf envC4 [] [attC4] (some [8, 8]) [42]).result = .ok (.bytes [8, 8, 1])
    ∧ (postprocess_pdf_report envC4 [] [attC4] 42 (.stream [8, 8])).result
        = .ok (.bytes [9, 9])
    ∧ Event.cacheRead ∈ (postprocess_pdf_report envC4 [] [attC4] 42 (.stream [8, 8])).events :=
  ⟨by decide, by decide, rfl, rfl, by decide⟩

/-- Certificate and environment for the command-line claims: paths resolve
to themselves, the tool succeeds and writes its output. -/
def certC5 : Certificate :=
  ⟨"c5", 1, "sale.order", false, none, none, "ks.p12", "pw.txt"⟩

def envC5 : Env :=
  ⟨"qweb-pdf", 1, "sale.order", 1, [certC5], "M", fun p => some p,
    "report.tmp.7.pdf", 0, "", "", true, id, false, id, []⟩

/-- The command line emitted on that run. -/
def cmdC5 : String := pdf_sign_2_command "M" "report.tmp.7.pdf" "ks.p12"

set_option maxRecDepth 10000 in
/-- C5 counterexample: the signing invocation performed by the Orchestrator
(via `pdf_sign_2`) is not of the claimed shape
`<runtime> <tool> <keystore> <input> <output> <password-file>`: on a
concrete run the emitted command puts the input pdf first behind the jar,
does not contain the resolved password-file path at all, and differs from
the claimed command. -/
theorem signer_command_counterexample :
    Event.signCall cmdC5 ∈ (post_pdf envC5 [] [] (some [1]) [3]).events
    ∧ hasSeg "pw.txt".toList cmdC5.toList = false
    ∧ cmdC5 ≠ spec_signer_command java_bin (jar_path_2 "M") "ks.p12"
        "report.tmp.7.pdf" (signedName "report.tmp.7.pdf") "pw.txt" :=
  ⟨by decide, by decide, by decide⟩

/-- C5 amended: the claimed positional order
`<runtime> <tool-artifact> <keystore> <input> <output> <password-file>`
is the command built by the legacy `pdf_sign` helper; the orchestrators
call `pdf_sign_2`, whose JSignPdf command puts the input path first behind
the runtime and jar, passes the keystore via `-ksf` and a hardcoded
password `'300474'` via `-ksp` plus fixed appearance flags, with no output
path and no password-file argument. -/
theorem signer_command_amended (env : Env) (fs : FS) (pdf : String)
    (cert : Certificate) (p12 pw : String)
    (hp12 : env.resolve cert.path = some p12)
    (hpw : env.resolve cert.passwordFile = some pw)
    (me pdfL p12L pwL : String) :
    (pdf_sign_2 env fs pdf cert).events
        = [Event.signCall (pdf_sign_2_command env.me pdf p12)]
    ∧ pdf_sign_command me pdfL p12L pwL
        = spec_signer_command java_bin (jar_path me) p12L pdfL
            (pdfL ++ ".signed.pdf") pwL := by
  constructor
  · unfold pdf_sign_2
    simp only [hp12, hpw]
    split <;> rfl
  · simp [pdf_sign_command, spec_signer_command, signer_bin, signer_opts_v1,
      String.append_assoc]

theorem signer_command_amended_witness :
    (pdf_sign_2 envC5 [] "report.tmp.7.pdf" certC5).events
        = [Event.signCall (pdf_sign_2_command "M" "report.tmp.7.pdf" "ks.p12")]
    ∧ pdf_sign_command "M" "in.pdf" "k.p12" "p.txt"
        = spec_signer_command java_bin (jar_path "M") "k.p12" "in.pdf"
            ("in.pdf" ++ ".signed.pdf") "p.txt" :=
  signer_command_amended envC5 [] "report.tmp.7.pdf" certC5 "ks.p12" "pw.txt"
    rfl rfl "M" "in.pdf" "k.p12" "p.txt"
